import Mathlib

/-!
Shallow embedding of the node-liveness caching subsystem of the
threefoldtech grid proxy server (`internal/explorer/helpers.go`,
`internal/explorer/server.go`), together with proofs of the behavioural
properties of its fetch pipeline, liveness cache policy and read path.

External collaborators (the GraphQL directory, the RMB node probe, the
redis key-value store and the process-local go-cache) are modelled at
their interface boundary: the directory and probe as an environment of
response functions, the two caches as association lists threaded through
the state.  Machine integers in the source (uint32 twin ids, capacity
counters) are modelled as `Nat`: none of the verified code performs
arithmetic on them, so no overflow is observable.
-/

namespace GridProxy

/-- `gridtypes.Capacity`: resource counters of a node (cru/sru/hru/mru/ipv4u). -/
structure Capacity where
  cru : Nat
  sru : Nat
  hru : Nat
  mru : Nat
  ipv4u : Nat
deriving Repr, DecidableEq

/-- The zero value of `gridtypes.Capacity` (Go struct zero value). -/
def Capacity.zero : Capacity := ⟨0, 0, 0, 0, 0⟩

/-- `capacityResult`: total and used capacity as fetched from a node. -/
structure capacityResult where
  total : Capacity
  used : Capacity
deriving Repr, DecidableEq

/-- `NodeInfo`: node specific info queried directly from the node
(capacity, dmi, hypervisor, zos version).  The dmi inventory is opaque to
this subsystem and modelled as a string. -/
structure NodeInfo where
  capacity : capacityResult
  dmi : String
  hypervisor : String
  zosVersion : String
deriving Repr, DecidableEq

/-- Go error values as they are used by this subsystem: the sentinel
errors of `types.go` (`ErrNodeNotFound`, `ErrBadGateway`, `ErrLikelyDown`),
leaf errors carrying a message (`fmt.Errorf`, client errors), and
`errors.Wrapf`-style wrapping that preserves the cause chain. -/
inductive GoErr where
  | nodeNotFound
  | badGateway
  | likelyDown
  | errMsg (msg : String)
  | wrapped (msg : String) (cause : GoErr)
deriving Repr, DecidableEq

/-- `errors.Is`: walks the wrap chain looking for the target sentinel. -/
def GoErr.is (e target : GoErr) : Bool :=
  match e with
  | .wrapped _ c => e == target || c.is target
  | _ => e == target

/-- `Error()`: the rendered message of an error (pkg/errors renders a wrap
as "msg: cause"). -/
def GoErr.text (e : GoErr) : String :=
  match e with
  | .nodeNotFound => "node not found"
  | .badGateway => "bad gateway"
  | .likelyDown => "likely down"
  | .errMsg m => m
  | .wrapped m c => m ++ ": " ++ c.text

/-- Values stored in the process-local go-cache: twin ids (under the bare
node id key), hypervisor names and dmi inventories (under prefixed keys). -/
inductive CacheVal where
  | twin (t : Nat)
  | str (h : String)
  | dmiVal (d : String)
deriving Repr, DecidableEq

/-- A go-cache item: value plus optional absolute expiration time
(`none` models `cache.NoExpiration`). -/
structure LruEntry where
  val : CacheVal
  exp : Option Nat
deriving Repr, DecidableEq

/-- A redis entry: the stored string and the TTL (seconds) it was written
with. -/
structure RedisEntry where
  value : String
  ttl : Nat
deriving Repr, DecidableEq

/-- First-match association-list lookup, the map semantics of both caches. -/
def alookup {β : Type} (l : List (String × β)) (k : String) : Option β :=
  match l with
  | [] => none
  | (k', v) :: t => if k' = k then some v else alookup t k

/-- Insert-or-replace: the new binding shadows and removes any previous
binding of the same key (both redis `SET` and go-cache `Set` overwrite). -/
def aset {β : Type} (l : List (String × β)) (k : String) (v : β) :
    List (String × β) :=
  (k, v) :: l.filter (fun p => p.1 ≠ k)

/-- Key removal (redis `DEL`). -/
def adel {β : Type} (l : List (String × β)) (k : String) :
    List (String × β) :=
  l.filter (fun p => p.1 ≠ k)

theorem alookup_filter_self {β : Type} (l : List (String × β))
    (k : String) :
    alookup (l.filter (fun p => p.1 ≠ k)) k = none := by
  induction l with
  | nil => rfl
  | cons p t ih =>
    cases p with
    | mk a b =>
      by_cases hp : a = k
      · rw [List.filter_cons_of_neg (by simp [hp])]
        exact ih
      · rw [List.filter_cons_of_pos (by simp [hp])]
        simp only [alookup]
        rw [if_neg hp]
        exact ih

theorem alookup_filter_ne {β : Type} (l : List (String × β))
    {k k' : String} (h : k' ≠ k) :
    alookup (l.filter (fun p => p.1 ≠ k)) k' = alookup l k' := by
  induction l with
  | nil => rfl
  | cons p t ih =>
    cases p with
    | mk a b =>
      by_cases hp : a = k
      · rw [List.filter_cons_of_neg (by simp [hp])]
        rw [ih]
        simp only [alookup]
        rw [if_neg (fun hc : a = k' => h (hc.symm.trans hp))]
      · rw [List.filter_cons_of_pos (by simp [hp])]
        simp only [alookup]
        by_cases hk : a = k'
        · simp [hk]
        · rw [if_neg hk, if_neg hk]
          exact ih

theorem alookup_aset_self {β : Type} (l : List (String × β)) (k : String)
    (v : β) : alookup (aset l k v) k = some v := by
  simp [aset, alookup]

theorem alookup_aset_ne {β : Type} (l : List (String × β)) {k k' : String}
    (v : β) (h : k' ≠ k) : alookup (aset l k v) k' = alookup l k' := by
  simp only [aset, alookup]
  rw [if_neg (fun hh => h hh.symm)]
  exact alookup_filter_ne l h

theorem alookup_adel_self {β : Type} (l : List (String × β)) (k : String) :
    alookup (adel l k) k = none :=
  alookup_filter_self l k

theorem alookup_adel_ne {β : Type} (l : List (String × β)) {k k' : String}
    (h : k' ≠ k) : alookup (adel l k) k' = alookup l k' :=
  alookup_filter_ne l h

/-! ## Serialization

`NodeInfo.Serialize`/`Deserialize` wrap `encoding/json` marshalling in the
source.  JSON itself is external; we model the encoding as a concrete
injective-on-clean-inputs textual format with a partial-inverse decoder.
What the verified code relies on is exactly what the model provides: the
encoder is deterministic and total, the decoder succeeds on every encoder
output (with separator-free field strings) and fails on the `"likely
down"` sentinel and on the empty string. -/

/-- Field list of a capacity record, in serialization order. -/
def Capacity.fields (c : Capacity) : List Nat :=
  [c.cru, c.sru, c.hru, c.mru, c.ipv4u]

/-- `NodeInfo.Serialize` (`json.Marshal` in the source): deterministic
textual encoding of a snapshot. -/
def NodeInfo.Serialize (n : NodeInfo) : String :=
  "nodeinfo;"
    ++ String.intercalate ";"
      ((n.capacity.total.fields ++ n.capacity.used.fields).map toString)
    ++ ";" ++ n.dmi ++ ";" ++ n.hypervisor ++ ";" ++ n.zosVersion

/-- Split a character list on the `;` separator (structural helper of the
decoder). -/
def splitSemis : List Char → List (List Char)
  | [] => [[]]
  | c :: t =>
    let r := splitSemis t
    if c = ';' then [] :: r
    else
      match r with
      | [] => [[c]]
      | h :: t2 => (c :: h) :: t2

/-- Parse a decimal numeral (structural helper of the decoder). -/
def natFromChars (cs : List Char) : Option Nat :=
  if cs = [] then none
  else
    cs.foldl
      (fun acc c =>
        match acc with
        | none => none
        | some n => if c.isDigit then some (n * 10 + (c.toNat - 48)) else none)
      (some 0)

/-- Decode the ten numeric capacity fields. -/
def decodeCapacities (l : List (List Char)) : Option (Capacity × Capacity) :=
  match l.mapM natFromChars with
  | some [a, b, c, d, e, f, g, h, i, j] =>
      some (⟨a, b, c, d, e⟩, ⟨f, g, h, i, j⟩)
  | _ => none

/-- `NodeInfo.Deserialize` (`json.Unmarshal` wrapped with the
"failed to deserialize json data for node info struct" context in the
source): partial inverse of `Serialize`. -/
def NodeInfo.Deserialize (data : String) : Except GoErr NodeInfo :=
  match (splitSemis data.data).map String.mk with
  | f :: rest =>
    if f = "nodeinfo" ∧ rest.length = 13 then
      match decodeCapacities ((rest.take 10).map String.data) with
      | some (total, used) =>
        .ok { capacity := { total := total, used := used },
              dmi := rest[10]!, hypervisor := rest[11]!,
              zosVersion := rest[12]! }
      | none =>
        .error (.wrapped "failed to deserialize json data for node info struct"
          (.errMsg "invalid character"))
    else
      .error (.wrapped "failed to deserialize json data for node info struct"
        (.errMsg "invalid character"))
  | [] =>
    .error (.wrapped "failed to deserialize json data for node info struct"
      (.errMsg "unexpected end of JSON input"))

theorem serialize_ne_empty (n : NodeInfo) : NodeInfo.Serialize n ≠ "" := by
  intro h
  have hl := congrArg String.length h
  rw [NodeInfo.Serialize] at hl
  simp only [String.length_append] at hl
  have h9 : ("nodeinfo;" : String).length = 9 := rfl
  have h0 : ("" : String).length = 0 := rfl
  omega

theorem serialize_ne_marker (n : NodeInfo) :
    NodeInfo.Serialize n ≠ "likely down" := by
  intro h
  have hd := congrArg String.data h
  rw [NodeInfo.Serialize] at hd
  simp only [String.data_append] at hd
  simp only [List.append_assoc, List.cons_append, List.cons.injEq] at hd
  exact absurd hd.1 (by decide)

/-! ## The durable cache store and the process-local cache -/

/-- Redis-side state: one entry per key. -/
abbrev RedisMap := List (String × RedisEntry)

/-- go-cache state. -/
abbrev LruMap := List (String × LruEntry)

/-- `GetRedisKey` (repository redis helper, `package explorer`): runs
`redis.String(conn.Do("GET", key))` against the shared pool.  The store
itself is external and modelled at its interface boundary: a present key
yields its stored string; a missing key yields redigo's nil-reply error
(`redis.ErrNil`, "redigo: nil returned"), which the helper logs and
returns with the empty string, and which every caller treats as a cache
miss. -/
def GetRedisKey (r : RedisMap) (key : String) : String × Option GoErr :=
  match alookup r key with
  | some e => (e.value, none)
  | none => ("", some (.errMsg "redigo: nil returned"))

/-- `SetRedisKey` (repository redis helper, `package explorer`): runs
`conn.Do("SET", key, val, "EX", expiration)` — insert-or-replace of the
key's value with an expiration in seconds.  The helper logs and returns
a write failure, and every caller logs and swallows it, so the external
store is modelled as always succeeding. -/
def SetRedisKey (r : RedisMap) (key value : String) (ttlSec : Nat) :
    RedisMap :=
  aset r key { value := value, ttl := ttlSec }

/-- Modelled from the spec: `DeleteRedisKey` is repository code not
included under `src/`.  Per the spec's cache-store interface it is
`DELETE`. -/
def DeleteRedisKey (r : RedisMap) (key : String) : RedisMap :=
  adel r key

/-- go-cache `Get` at the current time: an entry is returned while it has
no expiration or has not yet expired (go-cache treats an item as expired
strictly after its expiration instant). -/
def lruGet (l : LruMap) (key : String) (now : Nat) : Option CacheVal :=
  match alookup l key with
  | none => none
  | some e =>
    match e.exp with
    | none => some e.val
    | some t => if now ≤ t then some e.val else none

/-- go-cache `Set`: insert-or-replace with an absolute expiration
(`none` = `cache.NoExpiration`). -/
def lruSet (l : LruMap) (key : String) (v : CacheVal) (exp : Option Nat) :
    LruMap :=
  aset l key { val := v, exp := exp }

/-- The go-cache janitor's `DeleteExpired`, run every cleanup interval:
drops every entry whose expiration instant has passed. -/
def deleteExpired (l : LruMap) (now : Nat) : LruMap :=
  l.filter (fun p =>
    match p.2.exp with
    | none => true
    | some t => now ≤ t)

/-- `cache.New(2*time.Minute, 3*time.Minute)` in `Setup`: the default
expiration of the process-local cache, in seconds. -/
def lruDefaultExpirationSec : Nat := 120

/-- `cache.New(2*time.Minute, 3*time.Minute)` in `Setup`: the janitor
cleanup interval of the process-local cache, in seconds. -/
def lruCleanupIntervalSec : Nat := 180

/-- `10*60`: TTL of the "likely down" marker written by
`checkLikelyDown`. -/
def likelyDownTTLSec : Nat := 600

/-- `30*60`: TTL of a freshly fetched serialized snapshot written by
`getNodeData`. -/
def cacheFreshTTLSec : Nat := 1800

/-- `maxGoRoutnes`: the fleet refresher's concurrency cap. -/
def maxGoRoutnes : Nat := 30

/-! ## Environment and state -/

/-- Outcome of the directory's twin-id query for one node. -/
inductive DirResult where
  | err (msg : String)
  | notFound
  | twin (t : Nat)
deriving Repr, DecidableEq

/-- The external world at the interface boundary: the GraphQL directory
and the RMB node probe, as deterministic response functions. -/
structure Env where
  dirTwin : String → DirResult
  counters : Nat → Except String (Capacity × Capacity)
  sysVersion : Nat → Except String String
  sysHypervisor : Nat → Except String String
  sysDMI : Nat → Except String String

/-- Process-local mutable state: the go-cache plus instrumentation
counters for directory queries and node-probe calls (the spec's
"probe-call counter"). -/
structure LocalState where
  lru : LruMap
  dirQueries : Nat
  probeCalls : Nat
deriving Repr, DecidableEq

/-- Full application state: the durable redis cache plus the
process-local state. -/
structure AppState where
  redis : RedisMap
  localS : LocalState
deriving Repr, DecidableEq

/-- `getNodeKey`: `fmt.Sprintf("GRID3NODE:%s", nodeID)`. -/
def getNodeKey (nodeID : String) : String := "GRID3NODE:" ++ nodeID

/-- go-cache key of a node's hypervisor
(`fmt.Sprintf("node_%s_hypervisor", nodeID)`). -/
def hypervisorKey (nodeID : String) : String :=
  "node_" ++ nodeID ++ "_hypervisor"

/-- go-cache key of a node's dmi data
(`fmt.Sprintf("node_%s_dmi", nodeID)`). -/
def dmiKey (nodeID : String) : String := "node_" ++ nodeID ++ "_dmi"

theorem hypervisorKey_ne_id (nodeID : String) :
    hypervisorKey nodeID ≠ nodeID := by
  intro h
  have hl := congrArg String.length h
  rw [hypervisorKey] at hl
  simp only [String.length_append] at hl
  have h5 : ("node_" : String).length = 5 := rfl
  have h11 : ("_hypervisor" : String).length = 11 := rfl
  omega

theorem dmiKey_ne_id (nodeID : String) : dmiKey nodeID ≠ nodeID := by
  intro h
  have hl := congrArg String.length h
  rw [dmiKey] at hl
  simp only [String.length_append] at hl
  have h5 : ("node_" : String).length = 5 := rfl
  have h4 : ("_dmi" : String).length = 4 := rfl
  omega

theorem dmiKey_ne_hypervisorKey (nodeID : String) :
    dmiKey nodeID ≠ hypervisorKey nodeID := by
  intro h
  have hl := congrArg String.length h
  rw [dmiKey, hypervisorKey] at hl
  simp only [String.length_append] at hl
  have h5 : ("node_" : String).length = 5 := rfl
  have h4 : ("_dmi" : String).length = 4 := rfl
  have h11 : ("_hypervisor" : String).length = 11 := rfl
  omega

/-! ## The fetch pipeline (`helpers.go`) -/

/-- `getNodeTwinID`: serve the twin id from the process-local cache when
present and unexpired; otherwise query the directory, fail with
`ErrNodeNotFound` on zero matches, and cache a successful resolution with
the default expiration.  (A cached value of a different dynamic type
cannot arise from this subsystem's own writes, since hypervisor and dmi
data live under prefixed keys; such a value falls through to the query,
mirroring a state the Go code never reaches.) -/
def getNodeTwinID (env : Env) (now : Nat) (s : LocalState)
    (nodeID : String) : Except GoErr Nat × LocalState :=
  match lruGet s.lru nodeID now with
  | some (CacheVal.twin t) => (.ok t, s)
  | _ =>
    let s1 := { s with dirQueries := s.dirQueries + 1 }
    match env.dirTwin nodeID with
    | .err m => (.error (.wrapped "failed to query node" (.errMsg m)), s1)
    | .notFound => (.error GoErr.nodeNotFound, s1)
    | .twin t =>
      (.ok t, { s1 with
        lru := lruSet s1.lru nodeID (.twin t)
          (some (now + lruDefaultExpirationSec)) })

/-- `getNodeHypervisor`: serve from the process-local cache when present;
otherwise ask the node and cache the answer with no expiration. -/
def getNodeHypervisor (env : Env) (now : Nat) (s : LocalState)
    (nodeID : String) (twinID : Nat) : Except String String × LocalState :=
  match lruGet s.lru (hypervisorKey nodeID) now with
  | some (CacheVal.str h) => (.ok h, s)
  | _ =>
    let s1 := { s with probeCalls := s.probeCalls + 1 }
    match env.sysHypervisor twinID with
    | .error m => (.error m, s1)
    | .ok h =>
      (.ok h, { s1 with
        lru := lruSet s1.lru (hypervisorKey nodeID) (.str h) none })

/-- `getNodeDMI`: serve from the process-local cache when present;
otherwise ask the node and cache the answer with no expiration. -/
def getNodeDMI (env : Env) (now : Nat) (s : LocalState)
    (nodeID : String) (twinID : Nat) : Except String String × LocalState :=
  match lruGet s.lru (dmiKey nodeID) now with
  | some (CacheVal.dmiVal d) => (.ok d, s)
  | _ =>
    let s1 := { s with probeCalls := s.probeCalls + 1 }
    match env.sysDMI twinID with
    | .error m => (.error m, s1)
    | .ok d =>
      (.ok d, { s1 with
        lru := lruSet s1.lru (dmiKey nodeID) (.dmiVal d) none })

/-- `fetchNodeData`: resolve the twin id, then query the node's counters,
version, hypervisor and dmi over rmb, assembling a `NodeInfo`; every
probe error is wrapped with the stage that failed. -/
def fetchNodeData (env : Env) (now : Nat) (s : LocalState)
    (nodeID : String) : Except GoErr NodeInfo × LocalState :=
  match getNodeTwinID env now s nodeID with
  | (.error e, s1) => (.error e, s1)
  | (.ok twinID, s1) =>
    let s2 := { s1 with probeCalls := s1.probeCalls + 1 }
    match env.counters twinID with
    | .error m =>
      (.error (.wrapped "error fetching node statistics" (.errMsg m)), s2)
    | .ok (total, used) =>
      let s3 := { s2 with probeCalls := s2.probeCalls + 1 }
      match env.sysVersion twinID with
      | .error m =>
        (.error (.wrapped "error fetching node version" (.errMsg m)), s3)
      | .ok zosVer =>
        match getNodeHypervisor env now s3 nodeID twinID with
        | (.error m, s4) =>
          (.error (.wrapped "error fetching hypervisor" (.errMsg m)), s4)
        | (.ok hyp, s4) =>
          match getNodeDMI env now s4 nodeID twinID with
          | (.error m, s5) =>
            (.error (.wrapped "error fetching node dmi" (.errMsg m)), s5)
          | (.ok d, s5) =>
            (.ok { capacity := { total := total, used := used },
                   dmi := d, hypervisor := hyp, zosVersion := zosVer }, s5)

/-- `checkLikelyDown`: deserialize the previously cached data; when it is
a valid snapshot, overwrite the node's key with the `"likely down"`
marker under the short TTL and fail with `ErrLikelyDown`.  (The
`originalError` parameter is unused in the source as well.) -/
def checkLikelyDown (s : AppState) (data nodeID : String)
    (_originalError : GoErr) : Except GoErr String × AppState :=
  match NodeInfo.Deserialize data with
  | .error e => (.error e, s)
  | .ok _ =>
    (.error GoErr.likelyDown,
     { s with redis := (SetRedisKey s.redis (getNodeKey nodeID)
        "likely down" likelyDownTTLSec) })

/-- `getNodeData`: the cache-aware wrapper around `fetchNodeData`.
A non-forced call with a nonempty cached value returns it immediately;
otherwise the pipeline runs and the cache is updated according to the
outcome: delete on `ErrNodeNotFound`, likely-down marker when a prior
value exists, delete plus `ErrBadGateway` otherwise, fresh serialized
snapshot on success. -/
def getNodeData (env : Env) (now : Nat) (s : AppState) (nodeID : String)
    (force : Bool) : Except GoErr String × AppState :=
  let value := (GetRedisKey s.redis (getNodeKey nodeID)).1
  if value ≠ "" ∧ force = false then (.ok value, s)
  else
    match fetchNodeData env now s.localS nodeID with
    | (.error e, ls1) =>
      let s1 : AppState := { redis := s.redis, localS := ls1 }
      if e.is GoErr.nodeNotFound then
        (.error GoErr.nodeNotFound,
         { s1 with redis := DeleteRedisKey s1.redis (getNodeKey nodeID) })
      else if value ≠ "" then
        checkLikelyDown s1 value nodeID e
      else
        (.error (.wrapped e.text GoErr.badGateway),
         { s1 with redis := DeleteRedisKey s1.redis (getNodeKey nodeID) })
    | (.ok nodeInfo, ls1) =>
      let s1 : AppState := { redis := s.redis, localS := ls1 }
      let serialized := NodeInfo.Serialize nodeInfo
      (.ok serialized,
       { s1 with redis := (SetRedisKey s1.redis (getNodeKey nodeID)
          serialized cacheFreshTTLSec) })

/-! ## The read path (`server.go`) -/

/-- An HTTP response as produced by the handlers: status code and body. -/
structure HttpResponse where
  status : Nat
  body : String
deriving Repr, DecidableEq

/-- `NodeStatus.Serialize`: the JSON body of the status endpoint. -/
def statusSerialize (st : String) : String :=
  "\x7b\"status\":\"" ++ st ++ "\"\x7d"

/-- `getNode` (the spec's `getSnapshot`): non-forced `getNodeData`,
mapped to 404 on `ErrNodeNotFound`, 502 on `ErrBadGateway`, 500 on any
other error and 200 with the serialized payload otherwise. -/
def getNode (env : Env) (now : Nat) (s : AppState) (nodeID : String) :
    HttpResponse × AppState :=
  match getNodeData env now s nodeID false with
  | (.error e, s1) =>
    if e.is GoErr.nodeNotFound then
      ({ status := 404, body := "Not Found" }, s1)
    else if e.is GoErr.badGateway then
      ({ status := 502, body := "Bad Gateway" }, s1)
    else
      ({ status := 500, body := "Internal Server Error" }, s1)
  | (.ok nodeData, s1) => ({ status := 200, body := nodeData }, s1)

/-- `getNodeStatus` (the spec's `getStatus`): classify liveness from the
redis key alone — read error means `down`, the marker means
`likely down`, any other nonempty value means `up`.  (When the key reads
back empty without an error the handler writes nothing and the net/http
layer answers 200 with an empty body.) -/
def getNodeStatus (s : AppState) (nodeID : String) : HttpResponse :=
  let read := GetRedisKey s.redis (getNodeKey nodeID)
  match read.2 with
  | some _ => { status := 200, body := statusSerialize "down" }
  | none =>
    if read.1 = "likely down" then
      { status := 200, body := statusSerialize "likely down" }
    else if read.1 ≠ "" then
      { status := 200, body := statusSerialize "up" }
    else
      { status := 200, body := "" }

/-- Modelled from the spec: `getNodeCapacity` is called by `listNodes`
but its definition is not among the provided sources.  Per the spec,
`listNodes` attaches "the cached capacity figures" for nodes currently
up: modelled as reading the node's data through the cache-aware
`getNodeData` and extracting the capacity from the snapshot. -/
def getNodeCapacity (env : Env) (now : Nat) (s : AppState)
    (nodeID : String) (force : Bool) :
    Except GoErr capacityResult × AppState :=
  match getNodeData env now s nodeID force with
  | (.error e, s1) => (.error e, s1)
  | (.ok data, s1) =>
    match NodeInfo.Deserialize data with
    | .error e => (.error e, s1)
    | .ok info => (.ok info.capacity, s1)

/-- A node row of a directory page, restricted to the fields the
`listNodes` loop reads. -/
structure DirNode where
  nodeID : Nat
  city : String
  country : String
deriving Repr, DecidableEq

/-- A node entry of the `listNodes` response, restricted to the fields
the loop writes (unset resources keep the Go zero value). -/
structure NodeOut where
  nodeID : Nat
  status : String
  totalResources : Capacity
  usedResources : Capacity
  locationCity : String
  locationCountry : String
deriving Repr, DecidableEq

/-- The body of the `listNodes` loop for one directory row: classify the
node from the redis key (the `Status` field starts as the zero value
`""`; a read error sets `down`, the marker sets `likely down`, any other
nonempty value sets `up`), and only for `up` nodes attach the cached
capacity — a capacity error `continue`s, skipping the row. -/
def listNodesEntry (env : Env) (now : Nat) (s : AppState) (dn : DirNode) :
    Option NodeOut × AppState :=
  let read := GetRedisKey s.redis (getNodeKey (toString dn.nodeID))
  let st0 := ""
  let st1 := if read.2.isSome then "down" else st0
  let st2 := if read.1 = "likely down" then "likely down" else st1
  let st3 := if read.1 ≠ "" ∧ read.1 ≠ "likely down" then "up" else st2
  if st3 = "up" then
    match getNodeCapacity env now s (toString dn.nodeID) false with
    | (.error _, s1) => (none, s1)
    | (.ok cap, s1) =>
      (some { nodeID := dn.nodeID, status := st3,
              totalResources := cap.total, usedResources := cap.used,
              locationCity := dn.city, locationCountry := dn.country }, s1)
  else
    (some { nodeID := dn.nodeID, status := st3,
            totalResources := Capacity.zero, usedResources := Capacity.zero,
            locationCity := dn.city, locationCountry := dn.country }, s)

/-- `listNodes` over a directory page: fold the loop body, appending the
produced rows. -/
def listNodes (env : Env) (now : Nat) (s : AppState)
    (page : List DirNode) : List NodeOut × AppState :=
  page.foldl
    (fun acc dn =>
      match listNodesEntry env now acc.2 dn with
      | (none, s1) => (acc.1, s1)
      | (some out, s1) => (acc.1 ++ [out], s1))
    ([], s)

/-! ## Operation sequences (fleet refresher and interactive calls) -/

/-- One cache-mutating operation: an interactive or forced `getNodeData`
call, or a full fleet-refresher cycle (`cacheNodesInfo`) over a list of
node ids, each driven with `force = true`. -/
inductive CacheOp where
  | getData (nodeID : String) (force : Bool)
  | refreshCycle (ids : List String)

/-- State effect of one operation (per-node fetches of a refresher cycle
sequentialized; every interleaving performs the same per-call writes). -/
def applyOp (env : Env) (now : Nat) (s : AppState) : CacheOp → AppState
  | .getData nodeID force => (getNodeData env now s nodeID force).2
  | .refreshCycle ids =>
    ids.foldl (fun st nodeID => (getNodeData env now st nodeID true).2) s

/-- Run a sequence of operations. -/
def runOps (env : Env) (now : Nat) (ops : List CacheOp) (s : AppState) :
    AppState :=
  ops.foldl (applyOp env now) s

/-! ## Error-classification lemmas -/

theorem is_wrapped (m : String) (c target : GoErr) (h : target ≠ .wrapped m c) :
    (GoErr.wrapped m c).is target = c.is target := by
  simp only [GoErr.is]
  rw [show ((GoErr.wrapped m c == target) = false) by
    simp [BEq.beq]
    intro hc
    exact absurd hc.symm (by exact fun hh => h (by rw [hh]))]
  simp

theorem badGateway_is_nodeNotFound :
    GoErr.badGateway.is GoErr.nodeNotFound = false := rfl

theorem nodeNotFound_is_nodeNotFound :
    GoErr.nodeNotFound.is GoErr.nodeNotFound = true := rfl

theorem likelyDown_is_nodeNotFound :
    GoErr.likelyDown.is GoErr.nodeNotFound = false := rfl

theorem likelyDown_is_badGateway :
    GoErr.likelyDown.is GoErr.badGateway = false := rfl

theorem wrapped_badGateway_is_badGateway (m : String) :
    (GoErr.wrapped m GoErr.badGateway).is GoErr.badGateway = true := by
  rw [is_wrapped]
  · rfl
  · intro h
    cases h

theorem wrapped_badGateway_is_nodeNotFound (m : String) :
    (GoErr.wrapped m GoErr.badGateway).is GoErr.nodeNotFound = false := by
  rw [is_wrapped]
  · rfl
  · intro h
    cases h

/-! ## Branch behaviour of `getNodeData` -/

theorem getNodeData_hit (env : Env) (now : Nat) (s : AppState)
    (nodeID v : String)
    (hv : (GetRedisKey s.redis (getNodeKey nodeID)).1 = v) (hne : v ≠ "") :
    getNodeData env now s nodeID false = (.ok v, s) := by
  simp only [getNodeData, hv]
  rw [if_pos ⟨hne, trivial⟩]

theorem getNodeData_notFound (env : Env) (now : Nat) (s : AppState)
    (nodeID : String) (ls1 : LocalState) (force : Bool)
    (hfetch : fetchNodeData env now s.localS nodeID
      = (.error GoErr.nodeNotFound, ls1))
    (hcond : (GetRedisKey s.redis (getNodeKey nodeID)).1 = "" ∨ force = true) :
    getNodeData env now s nodeID force
      = (.error GoErr.nodeNotFound,
         { redis := DeleteRedisKey s.redis (getNodeKey nodeID),
           localS := ls1 }) := by
  simp only [getNodeData, hfetch]
  rw [if_neg]
  · rfl
  · rcases hcond with h | h
    · rw [h]
      simp
    · rw [h]
      simp

theorem getNodeData_likelyDown (env : Env) (now : Nat) (s : AppState)
    (nodeID v : String) (info : NodeInfo) (e : GoErr) (ls1 : LocalState)
    (hv : (GetRedisKey s.redis (getNodeKey nodeID)).1 = v) (hne : v ≠ "")
    (hdes : NodeInfo.Deserialize v = .ok info)
    (hfetch : fetchNodeData env now s.localS nodeID = (.error e, ls1))
    (hnnf : e.is GoErr.nodeNotFound = false) :
    getNodeData env now s nodeID true
      = (.error GoErr.likelyDown,
         { redis := (SetRedisKey s.redis (getNodeKey nodeID)
            "likely down" likelyDownTTLSec),
           localS := ls1 }) := by
  simp only [getNodeData, hv, hfetch]
  rw [if_neg (by simp)]
  simp only [hnnf]
  rw [if_neg (by simp), if_pos hne]
  simp only [checkLikelyDown, hdes]

theorem getNodeData_badGateway (env : Env) (now : Nat) (s : AppState)
    (nodeID : String) (e : GoErr) (ls1 : LocalState) (force : Bool)
    (hv : (GetRedisKey s.redis (getNodeKey nodeID)).1 = "")
    (hfetch : fetchNodeData env now s.localS nodeID = (.error e, ls1))
    (hnnf : e.is GoErr.nodeNotFound = false) :
    getNodeData env now s nodeID force
      = (.error (.wrapped e.text GoErr.badGateway),
         { redis := DeleteRedisKey s.redis (getNodeKey nodeID),
           localS := ls1 }) := by
  simp only [getNodeData, hv, hfetch]
  rw [if_neg (by simp)]
  simp only [hnnf]
  rw [if_neg (by simp), if_neg (by simp)]

/-! ## Concrete fixtures used by witnesses and counterexamples -/

/-- An environment in which node 42 resolves to twin 7 but every probe
times out. -/
def envProbeFail : Env :=
  { dirTwin := fun _ => .twin 7,
    counters := fun _ => .error "i/o timeout",
    sysVersion := fun _ => .error "i/o timeout",
    sysHypervisor := fun _ => .error "i/o timeout",
    sysDMI := fun _ => .error "i/o timeout" }

/-- An environment in which the directory reports zero matches for every
node. -/
def envGone : Env :=
  { dirTwin := fun _ => .notFound,
    counters := fun _ => .error "unreachable",
    sysVersion := fun _ => .error "unreachable",
    sysHypervisor := fun _ => .error "unreachable",
    sysDMI := fun _ => .error "unreachable" }

/-- A healthy environment: twin 7, capacity cru 4 / used cru 1. -/
def envHealthy : Env :=
  { dirTwin := fun _ => .twin 7,
    counters := fun _ => .ok (⟨4, 2, 3, 8, 1⟩, ⟨1, 1, 1, 2, 0⟩),
    sysVersion := fun _ => .ok "v3.1",
    sysHypervisor := fun _ => .ok "kvm",
    sysDMI := fun _ => .ok "dmi-tables" }

/-- The snapshot of node 42 as assembled under `envHealthy`. -/
def info42 : NodeInfo :=
  { capacity := { total := ⟨4, 2, 3, 8, 1⟩, used := ⟨1, 1, 1, 2, 0⟩ },
    dmi := "dmi-tables", hypervisor := "kvm", zosVersion := "v3.1" }

/-- Serialized form of `info42`. -/
def snap42 : String := NodeInfo.Serialize info42

/-- Fresh process-local state. -/
def emptyLocal : LocalState := { lru := [], dirQueries := 0, probeCalls := 0 }

/-- Application state whose liveness cache holds a fresh serialized
snapshot for node 42. -/
def stateWithSnap : AppState :=
  { redis := [(getNodeKey "42", { value := snap42, ttl := cacheFreshTTLSec })],
    localS := emptyLocal }

/-- Application state whose liveness cache holds the "likely down"
marker for node 42. -/
def stateMarker : AppState :=
  { redis := [(getNodeKey "42", { value := "likely down", ttl := likelyDownTTLSec })],
    localS := emptyLocal }

/-- Completely empty application state. -/
def emptyState : AppState := { redis := [], localS := emptyLocal }

/-- The directory row of node 42 as `listNodes` sees it. -/
def dirNode42 : DirNode := { nodeID := 42, city := "cairo", country := "egypt" }

theorem getNodeData_success (env : Env) (now : Nat) (s : AppState)
    (nodeID : String) (info : NodeInfo) (ls1 : LocalState) (force : Bool)
    (hfetch : fetchNodeData env now s.localS nodeID = (.ok info, ls1))
    (hcond : (GetRedisKey s.redis (getNodeKey nodeID)).1 = "" ∨ force = true) :
    getNodeData env now s nodeID force
      = (.ok (NodeInfo.Serialize info),
         { redis := (SetRedisKey s.redis (getNodeKey nodeID)
            (NodeInfo.Serialize info) cacheFreshTTLSec),
           localS := ls1 }) := by
  simp only [getNodeData, hfetch]
  rw [if_neg]
  rcases hcond with h | h
  · rw [h]
    simp
  · rw [h]
    simp

/-! ## Claim C3: cache hits answer without probing -/

/-- C3: for a node with a live (unexpired) liveness-cache entry — a key
whose stored value reads back nonempty — a non-forced `getNodeData`
returns the cached value immediately with the state untouched: no twin
resolution and no node-probe call happens, so the directory-query and
probe-call counters keep their values. -/
theorem claim_cache_hit_no_probe (env : Env) (now : Nat) (s : AppState)
    (nodeID v : String)
    (hv : (GetRedisKey s.redis (getNodeKey nodeID)).1 = v) (hne : v ≠ "") :
    getNodeData env now s nodeID false = (.ok v, s) ∧
    (getNodeData env now s nodeID false).2.localS.probeCalls
      = s.localS.probeCalls ∧
    (getNodeData env now s nodeID false).2.localS.dirQueries
      = s.localS.dirQueries := by
  have h := getNodeData_hit env now s nodeID v hv hne
  exact ⟨h, by rw [h], by rw [h]⟩

/-- Witness: the cache-hit claim applied to a concrete cached snapshot. -/
theorem claim_cache_hit_no_probe_witness :
    getNodeData envProbeFail 0 stateWithSnap "42" false
      = (.ok snap42, stateWithSnap) :=
  (claim_cache_hit_no_probe envProbeFail 0 stateWithSnap "42" snap42 rfl
    (by decide)).1

/-! ## Claim C2: reading a marked node (code bug) -/

/-- C2 (code-bug evaluation): with the `"likely down"` marker cached for
node 42, the non-forced read path answers HTTP 200 with the raw sentinel
string as body — `getNodeData` returns it as a successful payload because
its early-return does not distinguish the marker from a snapshot — rather
than failing with a BadGateway-class error mapped to 502 as specified
(the 200 body is also not a serialized `NodeInfo`, contradicting the
handler's own swagger annotations). -/
theorem claim_marker_read_returns_200 :
    getNode envProbeFail 0 stateMarker "42"
      = ({ status := 200, body := "likely down" }, stateMarker) := by
  rw [getNode, getNodeData_hit envProbeFail 0 stateMarker "42" "likely down"
    (by decide) (by decide)]

/-! ## Claim C6: probe failure with no prior snapshot -/

/-- C6: when the node's key is empty (no prior snapshot) and the fetch
pipeline fails with anything but `ErrNodeNotFound`, `getNodeData` deletes
the key and fails with an error whose chain carries `ErrBadGateway`, and
the read path maps it to HTTP 502. -/
theorem claim_noSnap_fail_badGateway (env : Env) (now : Nat) (s : AppState)
    (nodeID : String) (e : GoErr) (ls1 : LocalState)
    (hv : (GetRedisKey s.redis (getNodeKey nodeID)).1 = "")
    (hfetch : fetchNodeData env now s.localS nodeID = (.error e, ls1))
    (hnnf : e.is GoErr.nodeNotFound = false) :
    (getNodeData env now s nodeID false).1
      = .error (.wrapped e.text GoErr.badGateway) ∧
    alookup (getNodeData env now s nodeID false).2.redis
      (getNodeKey nodeID) = none ∧
    (getNode env now s nodeID).1 = { status := 502, body := "Bad Gateway" } := by
  have h := getNodeData_badGateway env now s nodeID e ls1 false hv hfetch hnnf
  refine ⟨by rw [h], by rw [h]; exact alookup_adel_self _ _, ?_⟩
  rw [getNode, h]
  simp only [wrapped_badGateway_is_nodeNotFound,
    wrapped_badGateway_is_badGateway]
  simp

/-- Witness: a cold cache plus a timing-out probe yields the 502 path. -/
theorem claim_noSnap_fail_badGateway_witness :
    (getNode envProbeFail 0 emptyState "42").1
      = { status := 502, body := "Bad Gateway" } :=
  (claim_noSnap_fail_badGateway envProbeFail 0 emptyState "42"
    (.wrapped "error fetching node statistics" (.errMsg "i/o timeout"))
    { lru := [("42", { val := .twin 7, exp := some 120 })],
      dirQueries := 1, probeCalls := 1 }
    rfl rfl rfl).2.2

/-! ## Claim C5: directory zero matches clears the key -/

/-- C5: when the twin id is not cached and the directory reports zero
matches, `getNodeData` deletes the node's key (whatever it held) and
fails with `ErrNodeNotFound`; a following `getNode` answers 404 and a
following `getNodeStatus` classifies the node `down`. -/
theorem claim_directory_notFound (env : Env) (now : Nat) (s : AppState)
    (nodeID : String)
    (hlru : lruGet s.localS.lru nodeID now = none)
    (hdir : env.dirTwin nodeID = .notFound) :
    (getNodeData env now s nodeID true).1 = .error GoErr.nodeNotFound ∧
    alookup (getNodeData env now s nodeID true).2.redis
      (getNodeKey nodeID) = none ∧
    (getNode env now (getNodeData env now s nodeID true).2 nodeID).1
      = { status := 404, body := "Not Found" } ∧
    getNodeStatus
      (getNode env now (getNodeData env now s nodeID true).2 nodeID).2 nodeID
      = { status := 200, body := statusSerialize "down" } := by
  have hfetch : ∀ ls : LocalState, ls.lru = s.localS.lru →
      fetchNodeData env now ls nodeID
        = (.error GoErr.nodeNotFound,
           { ls with dirQueries := ls.dirQueries + 1 }) := by
    intro ls hls
    rw [fetchNodeData, getNodeTwinID, hls, hlru, hdir]
  have h1 := getNodeData_notFound env now s nodeID
    { s.localS with dirQueries := s.localS.dirQueries + 1 } true
    (hfetch s.localS rfl) (Or.inr rfl)
  have hval2 : (GetRedisKey (getNodeData env now s nodeID true).2.redis
      (getNodeKey nodeID)).1 = "" := by
    rw [h1]
    simp [GetRedisKey, DeleteRedisKey, alookup_adel_self]
  have hlru2 : (getNodeData env now s nodeID true).2.localS.lru
      = s.localS.lru := by
    rw [h1]
  have h2 := getNodeData_notFound env now (getNodeData env now s nodeID true).2
    nodeID
    { (getNodeData env now s nodeID true).2.localS with
        dirQueries := (getNodeData env now s nodeID true).2.localS.dirQueries + 1 }
    false (hfetch _ hlru2) (Or.inl hval2)
  refine ⟨by rw [h1], by rw [h1]; exact alookup_adel_self _ _, ?_, ?_⟩
  · rw [getNode, h2]
    simp [nodeNotFound_is_nodeNotFound]
  · rw [getNode, h2]
    simp only [nodeNotFound_is_nodeNotFound]
    simp only [if_true]
    rw [getNodeStatus]
    simp [GetRedisKey, DeleteRedisKey, alookup_adel_self]

/-- Witness: a node with an existing fresh snapshot that the directory
no longer lists is cleared, 404s and classifies `down`. -/
theorem claim_directory_notFound_witness :
    getNodeStatus
      (getNode envGone 0 (getNodeData envGone 0 stateWithSnap "42" true).2
        "42").2 "42"
      = { status := 200, body := statusSerialize "down" } :=
  (claim_directory_notFound envGone 0 stateWithSnap "42" rfl rfl).2.2.2

/-! ## Claim C4: probe failure with a prior snapshot writes the marker -/

/-- C4: when the node's key holds a deserializable prior snapshot and a
(necessarily forced) probe fails with anything but `ErrNodeNotFound`,
`getNodeData` overwrites the key with the `"likely down"` marker under
the 10-minute TTL (600 seconds) and fails with `ErrLikelyDown`; a
subsequent `getNodeStatus` classifies the node `likely down`. -/
theorem claim_probe_fail_marks_likely_down (env : Env) (now : Nat)
    (s : AppState) (nodeID v : String) (info : NodeInfo) (e : GoErr)
    (ls1 : LocalState)
    (hv : (GetRedisKey s.redis (getNodeKey nodeID)).1 = v)
    (hdes : NodeInfo.Deserialize v = .ok info)
    (hfetch : fetchNodeData env now s.localS nodeID = (.error e, ls1))
    (hnnf : e.is GoErr.nodeNotFound = false) :
    (getNodeData env now s nodeID true).1 = .error GoErr.likelyDown ∧
    alookup (getNodeData env now s nodeID true).2.redis (getNodeKey nodeID)
      = some { value := "likely down", ttl := likelyDownTTLSec } ∧
    getNodeStatus (getNodeData env now s nodeID true).2 nodeID
      = { status := 200, body := statusSerialize "likely down" } := by
  have hne : v ≠ "" := by
    intro h
    have hD : NodeInfo.Deserialize ""
        = .error (.wrapped "failed to deserialize json data for node info struct"
            (.errMsg "invalid character")) := rfl
    rw [h, hD] at hdes
    cases hdes
  have h := getNodeData_likelyDown env now s nodeID v info e ls1 hv hne hdes
    hfetch hnnf
  refine ⟨by rw [h], ?_, ?_⟩
  · rw [h]
    exact alookup_aset_self _ _ _
  · rw [h]
    rw [getNodeStatus]
    simp [GetRedisKey, SetRedisKey, alookup_aset_self]

/-- Witness: node 42's fresh snapshot plus a timing-out probe yields the
marker, the 600-second TTL and the `likely down` classification. -/
theorem claim_probe_fail_marks_likely_down_witness :
    getNodeStatus (getNodeData envProbeFail 0 stateWithSnap "42" true).2 "42"
      = { status := 200, body := statusSerialize "likely down" } :=
  (claim_probe_fail_marks_likely_down envProbeFail 0 stateWithSnap "42"
    snap42 info42
    (.wrapped "error fetching node statistics" (.errMsg "i/o timeout"))
    { lru := [("42", { val := .twin 7, exp := some 120 })],
      dirQueries := 1, probeCalls := 1 }
    rfl rfl rfl rfl).2.2

/-! ## Claim C1: is the prior snapshot preserved behind the marker? -/

/-- C1 counterexample: node 42 has a fresh cached snapshot with
capacity cru 4; the probe then fails during a forced refresh.  The
node's single cache key now holds the `"likely down"` marker — the
snapshot was overwritten, not preserved — and `listNodes` reports the
node with status `"likely down"`, zero capacity figures, and no row
carrying the previously cached figures: they are no longer retrievable. -/
theorem claim_snapshot_preserved_counterexample :
    (listNodes envProbeFail 0
        (getNodeData envProbeFail 0 stateWithSnap "42" true).2 [dirNode42]).1
      = [{ nodeID := 42, status := "likely down",
           totalResources := Capacity.zero, usedResources := Capacity.zero,
           locationCity := "cairo", locationCountry := "egypt" }] ∧
    (∀ o ∈ (listNodes envProbeFail 0
        (getNodeData envProbeFail 0 stateWithSnap "42" true).2 [dirNode42]).1,
      o.totalResources ≠ info42.capacity.total) ∧
    alookup (getNodeData envProbeFail 0 stateWithSnap "42" true).2.redis
      (getNodeKey "42")
      = some { value := "likely down", ttl := likelyDownTTLSec } := by
  decide

/-- C1 amended: a failed probe for a node with a prior snapshot does not
preserve the snapshot behind the marker — the node's single cache key is
overwritten with the `"likely down"` marker (10-minute TTL), so the node
is still distinguished from `down`, but `listNodes` thereafter reports it
`"likely down"` with the zero capacity value: the previously cached
capacity figures are no longer retrievable from `listNodes`. -/
theorem claim_marker_replaces_snapshot (env : Env) (now : Nat)
    (s : AppState) (nodeID v : String) (info : NodeInfo) (e : GoErr)
    (ls1 : LocalState) (dn : DirNode)
    (hv : (GetRedisKey s.redis (getNodeKey nodeID)).1 = v)
    (hdes : NodeInfo.Deserialize v = .ok info)
    (hfetch : fetchNodeData env now s.localS nodeID = (.error e, ls1))
    (hnnf : e.is GoErr.nodeNotFound = false)
    (hdn : toString dn.nodeID = nodeID) :
    alookup (getNodeData env now s nodeID true).2.redis (getNodeKey nodeID)
      = some { value := "likely down", ttl := likelyDownTTLSec } ∧
    (listNodes env now
        (getNodeData env now s nodeID true).2 [dn]).1
      = [{ nodeID := dn.nodeID, status := "likely down",
           totalResources := Capacity.zero, usedResources := Capacity.zero,
           locationCity := dn.city, locationCountry := dn.country }] := by
  have hne : v ≠ "" := by
    intro h
    have hD : NodeInfo.Deserialize ""
        = .error (.wrapped "failed to deserialize json data for node info struct"
            (.errMsg "invalid character")) := rfl
    rw [h, hD] at hdes
    cases hdes
  have h := getNodeData_likelyDown env now s nodeID v info e ls1 hv hne hdes
    hfetch hnnf
  constructor
  · rw [h]
    exact alookup_aset_self _ _ _
  · rw [h]
    simp only [listNodes, List.foldl, listNodesEntry, hdn, GetRedisKey,
      SetRedisKey]
    rw [alookup_aset_self]
    simp

/-- Witness: the amended statement at the concrete node-42 scenario. -/
theorem claim_marker_replaces_snapshot_witness :
    (listNodes envProbeFail 0
        (getNodeData envProbeFail 0 stateWithSnap "42" true).2 [dirNode42]).1
      = [{ nodeID := 42, status := "likely down",
           totalResources := Capacity.zero, usedResources := Capacity.zero,
           locationCity := "cairo", locationCountry := "egypt" }] :=
  (claim_marker_replaces_snapshot envProbeFail 0 stateWithSnap "42"
    snap42 info42
    (.wrapped "error fetching node statistics" (.errMsg "i/o timeout"))
    { lru := [("42", { val := .twin 7, exp := some 120 })],
      dirQueries := 1, probeCalls := 1 }
    dirNode42 rfl rfl rfl rfl rfl).2

/-! ## Claim C7: the liveness-cache value invariant -/

/-- A liveness-cache value is well-formed: the likely-down sentinel or a
serialized snapshot. -/
def entryOk (e : RedisEntry) : Prop :=
  e.value = "likely down" ∨ ∃ n : NodeInfo, e.value = NodeInfo.Serialize n

/-- Liveness-cache invariant: at most one active value per key (unique
keys) and every stored value well-formed. -/
def RedisInv (r : RedisMap) : Prop :=
  (r.map Prod.fst).Nodup ∧ ∀ p ∈ r, entryOk p.2

theorem RedisInv_filter (r : RedisMap) (q : String × RedisEntry → Bool)
    (h : RedisInv r) : RedisInv (r.filter q) := by
  constructor
  · exact h.1.sublist (List.Sublist.map Prod.fst (List.filter_sublist r))
  · intro p hp
    exact h.2 p (List.mem_of_mem_filter hp)

theorem RedisInv_adel (r : RedisMap) (k : String) (h : RedisInv r) :
    RedisInv (adel r k) :=
  RedisInv_filter r _ h

theorem RedisInv_aset (r : RedisMap) (k : String) (e : RedisEntry)
    (h : RedisInv r) (he : entryOk e) : RedisInv (aset r k e) := by
  constructor
  · simp only [aset, List.map_cons]
    rw [List.nodup_cons]
    constructor
    · intro hmem
      rcases List.mem_map.mp hmem with ⟨p, hp, hpk⟩
      have := List.of_mem_filter hp
      simp only [decide_eq_true_eq] at this
      exact this hpk
    · exact h.1.sublist (List.Sublist.map Prod.fst (List.filter_sublist r))
  · intro p hp
    simp only [aset, List.mem_cons] at hp
    rcases hp with rfl | hp
    · exact he
    · exact h.2 p (List.mem_of_mem_filter hp)

theorem RedisInv_getNodeData (env : Env) (now : Nat) (s : AppState)
    (nodeID : String) (force : Bool) (h : RedisInv s.redis) :
    RedisInv (getNodeData env now s nodeID force).2.redis := by
  rw [getNodeData]
  split
  · exact h
  · split
    · split
      · exact RedisInv_adel _ _ h
      · split
        · rw [checkLikelyDown]
          split
          · exact h
          · exact RedisInv_aset _ _ _ h (Or.inl rfl)
        · exact RedisInv_adel _ _ h
    · exact RedisInv_aset _ _ _ h (Or.inr ⟨_, rfl⟩)

theorem RedisInv_refresh (env : Env) (now : Nat) (ids : List String)
    (s : AppState) (h : RedisInv s.redis) :
    RedisInv
      (ids.foldl (fun st nodeID => (getNodeData env now st nodeID true).2)
        s).redis := by
  induction ids generalizing s with
  | nil => exact h
  | cons i t ih =>
    exact ih _ (RedisInv_getNodeData env now s i true h)

theorem RedisInv_applyOp (env : Env) (now : Nat) (s : AppState)
    (op : CacheOp) (h : RedisInv s.redis) :
    RedisInv (applyOp env now s op).redis := by
  cases op with
  | getData nodeID force => exact RedisInv_getNodeData env now s nodeID force h
  | refreshCycle ids => exact RedisInv_refresh env now ids s h

/-- C7: after any sequence of `getNodeData` calls and fleet-refresher
cycles starting from a state satisfying the invariant, every
liveness-cache key still holds at most one active value, and that value
is either a serialized snapshot or the `"likely down"` sentinel — no
operation ever stores anything else. -/
theorem claim_cache_value_invariant (env : Env) (now : Nat)
    (ops : List CacheOp) (s : AppState) (h : RedisInv s.redis) :
    RedisInv (runOps env now ops s).redis := by
  rw [runOps]
  induction ops generalizing s with
  | nil => exact h
  | cons op t ih =>
    exact ih _ (RedisInv_applyOp env now s op h)

/-- Witness: the invariant after a mixed concrete operation sequence
from the empty cache. -/
theorem claim_cache_value_invariant_witness :
    RedisInv (runOps envHealthy 0
      [.getData "42" true, .refreshCycle ["1", "42"], .getData "42" false]
      emptyState).redis :=
  claim_cache_value_invariant envHealthy 0
    [.getData "42" true, .refreshCycle ["1", "42"], .getData "42" false]
    emptyState (by simp [RedisInv, emptyState])

/-! ## Claim C8: identity-cache freshness bounds -/

theorem alookup_filter_none {β : Type} (l : List (String × β))
    (p : String × β → Bool) (k : String) (h : alookup l k = none) :
    alookup (l.filter p) k = none := by
  induction l with
  | nil => rfl
  | cons x t ih =>
    cases x with
    | mk a b =>
      simp only [alookup] at h
      by_cases ha : a = k
      · rw [if_pos ha] at h
        cases h
      · rw [if_neg ha] at h
        by_cases hq : p (a, b) = true
        · rw [List.filter_cons_of_pos hq]
          simp only [alookup]
          rw [if_neg ha]
          exact ih h
        · rw [List.filter_cons_of_neg (by simpa using hq)]
          exact ih h

/-- C8: a twin-id entry cached by `getNodeTwinID` at time `t0` (with the
process-local cache's default expiration) is never served once it is
older than the 10-minute freshness window; some janitor tick purges it
from the store no later than 15 minutes after creation; and a
`getNodeTwinID` call past the freshness window re-resolves the twin id
from the directory.  (The configured expiration of 120 s and cleanup
interval of 180 s meet the stated bounds strictly.) -/
theorem claim_twin_cache_ttl (l : LruMap) (nodeID : String) (t t0 : Nat) :
    (∀ now, t0 + 600 < now →
      lruGet (lruSet l nodeID (.twin t) (some (t0 + lruDefaultExpirationSec)))
        nodeID now = none) ∧
    (∃ k, 0 < k ∧
      t0 + lruDefaultExpirationSec < lruCleanupIntervalSec * k ∧
      lruCleanupIntervalSec * k ≤ t0 + 900 ∧
      alookup (deleteExpired
          (lruSet l nodeID (.twin t) (some (t0 + lruDefaultExpirationSec)))
          (lruCleanupIntervalSec * k)) nodeID = none) ∧
    (∀ env (s : LocalState) now t2, t0 + 600 < now →
      env.dirTwin nodeID = .twin t2 →
      s.lru = lruSet l nodeID (.twin t) (some (t0 + lruDefaultExpirationSec)) →
      (getNodeTwinID env now s nodeID).1 = .ok t2) := by
  have hdef : lruDefaultExpirationSec = 120 := rfl
  have hcln : lruCleanupIntervalSec = 180 := rfl
  have hget : ∀ now, t0 + 600 < now →
      lruGet (lruSet l nodeID (.twin t) (some (t0 + lruDefaultExpirationSec)))
        nodeID now = none := by
    intro now hnow
    rw [lruGet, lruSet, alookup_aset_self]
    simp only []
    rw [if_neg (by omega)]
  refine ⟨hget, ?_, ?_⟩
  · simp only [hdef, hcln]
    refine ⟨(t0 + 120) / 180 + 1, by omega, by omega, by omega, ?_⟩
    rw [deleteExpired, lruSet, aset]
    rw [List.filter_cons_of_neg
      (by dsimp only; simp only [decide_eq_true_eq]; omega)]
    exact alookup_filter_none _ _ _ (alookup_filter_self l nodeID)
  · intro env s now t2 hnow hdir hs
    rw [getNodeTwinID, hs, hget now hnow, hdir]

/-- Witness: the freshness bounds at a concrete entry created at time 0
and queried at time 601. -/
theorem claim_twin_cache_ttl_witness :
    lruGet (lruSet [] "1" (.twin 7) (some (0 + lruDefaultExpirationSec)))
      "1" 601 = none ∧
    (getNodeTwinID envHealthy 601
      { lru := lruSet [] "1" (.twin 7) (some (0 + lruDefaultExpirationSec)),
        dirQueries := 0, probeCalls := 0 } "1").1 = .ok 7 :=
  ⟨(claim_twin_cache_ttl [] "1" 7 0).1 601 (by decide),
   (claim_twin_cache_ttl [] "1" 7 0).2.2 envHealthy
     { lru := lruSet [] "1" (.twin 7) (some (0 + lruDefaultExpirationSec)),
       dirQueries := 0, probeCalls := 0 }
     601 7 (by decide) rfl rfl⟩

/-! ## Claim C9: idempotence of non-forced reads -/

theorem getNodeData_fetchError_isError (env : Env) (now : Nat)
    (s : AppState) (nodeID : String) (force : Bool) (e : GoErr)
    (ls1 : LocalState)
    (hv : (GetRedisKey s.redis (getNodeKey nodeID)).1 = "")
    (hfetch : fetchNodeData env now s.localS nodeID = (.error e, ls1)) :
    ∃ e', (getNodeData env now s nodeID force).1 = .error e' := by
  simp only [getNodeData, hv, hfetch]
  rw [if_neg (by simp)]
  split
  · exact ⟨_, rfl⟩
  · rw [if_neg (by simp)]
    exact ⟨_, rfl⟩

/-- C9: two successive non-forced `getNodeData` calls with no
intervening write return byte-identical serialized payloads: whenever
the first call returns a payload, the second call — run on the state the
first call left behind — returns exactly the same string. -/
theorem claim_getNodeData_idempotent (env : Env) (now : Nat) (s : AppState)
    (nodeID v : String)
    (h : (getNodeData env now s nodeID false).1 = .ok v) :
    (getNodeData env now (getNodeData env now s nodeID false).2 nodeID
      false).1 = .ok v := by
  by_cases hval : (GetRedisKey s.redis (getNodeKey nodeID)).1 = ""
  · rcases hfe : fetchNodeData env now s.localS nodeID with ⟨res, ls1⟩
    cases res with
    | error e =>
      rcases getNodeData_fetchError_isError env now s nodeID false e ls1
        hval hfe with ⟨e', he'⟩
      rw [he'] at h
      cases h
    | ok info =>
      have h1 := getNodeData_success env now s nodeID info ls1 false hfe
        (Or.inl hval)
      have hv2 : (getNodeData env now s nodeID false).1
          = .ok (NodeInfo.Serialize info) := by rw [h1]
      rw [hv2] at h
      injection h with hh
      have hread : (GetRedisKey (getNodeData env now s nodeID false).2.redis
          (getNodeKey nodeID)).1 = NodeInfo.Serialize info := by
        rw [h1]
        simp [GetRedisKey, SetRedisKey, alookup_aset_self]
      have h2 := getNodeData_hit env now (getNodeData env now s nodeID false).2
        nodeID (NodeInfo.Serialize info) hread (serialize_ne_empty info)
      rw [h2, ← hh]
  · have h1 := getNodeData_hit env now s nodeID
      ((GetRedisKey s.redis (getNodeKey nodeID)).1) rfl hval
    rw [h1]
    exact h

/-- Witness: repeating a non-forced read of node 42's cached snapshot. -/
theorem claim_getNodeData_idempotent_witness :
    (getNodeData envProbeFail 0
      (getNodeData envProbeFail 0 stateWithSnap "42" false).2 "42" false).1
      = .ok snap42 :=
  claim_getNodeData_idempotent envProbeFail 0 stateWithSnap "42" snap42 rfl

/-! ## Claim C10: the fleet refresher's concurrency cap -/

/-- Synchronization skeleton of one `cacheNodesInfo` cycle: how many
sends into the buffered `channelLimit` channel, worker spawns, completed
per-node fetches and receives from the channel have happened. -/
structure RefresherState where
  sends : Nat
  spawns : Nat
  dones : Nat
  receives : Nat
deriving Repr, DecidableEq

/-- Interleaving semantics of the cycle's semaphore discipline: a send
into the channel blocks while it holds `maxGoRoutnes` tokens; each `go`
statement follows its loop iteration's send; a worker's receive follows
the completion of its `getNodeData` call. -/
inductive RefresherStep : RefresherState → RefresherState → Prop
  | send (s : RefresherState) (h : s.sends - s.receives < maxGoRoutnes) :
      RefresherStep s { s with sends := s.sends + 1 }
  | spawn (s : RefresherState) (h : s.spawns < s.sends) :
      RefresherStep s { s with spawns := s.spawns + 1 }
  | complete (s : RefresherState) (h : s.dones < s.spawns) :
      RefresherStep s { s with dones := s.dones + 1 }
  | receive (s : RefresherState) (h : s.receives < s.dones) :
      RefresherStep s { s with receives := s.receives + 1 }

/-- A cycle starts with nothing sent, spawned, completed or received. -/
def RefresherInit : RefresherState :=
  { sends := 0, spawns := 0, dones := 0, receives := 0 }

/-- The states a cycle can reach by interleaved scheduling. -/
def RefresherReachable (s : RefresherState) : Prop :=
  Relation.ReflTransGen RefresherStep RefresherInit s

/-- Workers whose per-node fetch has started but not yet returned. -/
def inflight (s : RefresherState) : Nat := s.spawns - s.dones

/-- Inductive invariant of the skeleton. -/
def RefresherWF (s : RefresherState) : Prop :=
  s.receives ≤ s.dones ∧ s.dones ≤ s.spawns ∧ s.spawns ≤ s.sends ∧
    s.sends - s.receives ≤ maxGoRoutnes

theorem refresherWF_step {s s' : RefresherState} (h : RefresherWF s)
    (hs : RefresherStep s s') : RefresherWF s' := by
  have hmax : maxGoRoutnes = 30 := rfl
  obtain ⟨h1, h2, h3, h4⟩ := h
  rw [hmax] at h4
  cases hs with
  | send hc =>
    rw [hmax] at hc
    simp only [RefresherWF, hmax]
    omega
  | spawn hc =>
    simp only [RefresherWF, hmax]
    omega
  | complete hc =>
    simp only [RefresherWF, hmax]
    omega
  | receive hc =>
    simp only [RefresherWF, hmax]
    omega

theorem refresherWF_reachable {s : RefresherState}
    (h : RefresherReachable s) : RefresherWF s := by
  induction h with
  | refl => exact ⟨Nat.le_refl 0, Nat.le_refl 0, Nat.le_refl 0, by decide⟩
  | tail _ hstep ih => exact refresherWF_step ih hstep

/-- C10: at every instant of a fleet-refresher cycle — in every state
the interleaved scheduling of `cacheNodesInfo`'s semaphore discipline
can reach — the number of simultaneously in-flight per-node fetches is
at most `maxGoRoutnes` = 30. -/
theorem claim_refresher_concurrency_cap (s : RefresherState)
    (h : RefresherReachable s) : inflight s ≤ maxGoRoutnes := by
  have hw := refresherWF_reachable h
  obtain ⟨h1, h2, h3, h4⟩ := hw
  rw [inflight]
  omega

/-- Witness: the cap at a concrete reachable state (one send, one
spawned worker). -/
theorem claim_refresher_concurrency_cap_witness :
    inflight { sends := 1, spawns := 1, dones := 0, receives := 0 }
      ≤ maxGoRoutnes :=
  claim_refresher_concurrency_cap
    { sends := 1, spawns := 1, dones := 0, receives := 0 }
    (Relation.ReflTransGen.tail
      (Relation.ReflTransGen.tail Relation.ReflTransGen.refl
        (RefresherStep.send RefresherInit (by decide)))
      (RefresherStep.spawn { RefresherInit with sends := 1 } (by decide)))

end GridProxy
